import Mathlib

/-!
Shallow embedding of the NeuroRift core (`src/core/neurorift-core`):
the session data model (`state/mod.rs`), the session store
(`session/mod.rs`) and the orchestrator (`lib.rs`).

Modelling conventions:
* `DateTime<Utc>` is a `Nat` (an abstract UTC instant); every operation
  that calls `Utc::now()` in Rust takes the clock reading `now : Nat`
  as an explicit argument.
* `Uuid::new_v4()` draws are passed in as explicit `String` arguments;
  the Rust code derives ids from them by stripping dashes and truncating.
* `HashMap<AgentType, AgentStatus>` is a finite partial map modelled as
  `AgentType → Option AgentStatus` (a `HashMap` is semantically exactly
  a partial function; key uniqueness is intrinsic).
* `HashMap<String, V>` maps carried as plain data (task args, metadata)
  are association lists `List (String × V)`.
* `VecDeque<Task>` is a `List Task`; `push_back` appends at the tail,
  `back()` is `List.getLast?`.
* `serde_json::Value` is the inductive `Json` below.
* The filesystem is a directory of named files; a stored `.nrs` file
  either holds a decodable envelope (`NrsContent.valid`) or content
  that `serde_json::from_str` rejects (`NrsContent.malformed`).
  `serde_json::to_string_pretty` followed by `from_str` is the identity
  on envelope values (serde round-trip), which this models.
  `fs::write` is NOT atomic (it truncates, then writes); a write fault
  mid-way leaves a proper prefix of the new JSON in the file, which is
  malformed content.  `save_session` therefore takes a `fault : Bool`
  describing whether the underlying `fs::write` failed.
-/

namespace NeuroRift

/-- Rust `OperationalMode` from `state/mod.rs`. -/
inductive OperationalMode where
  | Offensive
  | Defensive
deriving DecidableEq, Repr

/-- Rust `SessionStatus` from `state/mod.rs`. -/
inductive SessionStatus where
  | Active
  | Paused
  | Completed
  | Failed
deriving DecidableEq, Repr

/-- Rust `AgentType` from `state/mod.rs`. -/
inductive AgentType where
  | Planner
  | Operator
  | Navigator
  | Analyst
  | Scribe
deriving DecidableEq, Repr

/-- Rust `AgentState` from `state/mod.rs`. -/
inductive AgentState where
  | Idle
  | Planning
  | Executing
  | Analyzing
  | Writing
  | WaitingApproval
  | Error
deriving DecidableEq, Repr

/-- Rust `TaskStatus` from `state/mod.rs`. -/
inductive TaskStatus where
  | Queued
  | Running
  | Completed
  | Failed
  | Cancelled
deriving DecidableEq, Repr

/-- Rust `ActionType` from `state/mod.rs`. -/
inductive ActionType where
  | ToolExecution
  | BrowserNavigation
  | FormSubmission
  | FileWrite
  | RootCommand
deriving DecidableEq, Repr

/-- Rust `RiskLevel` from `state/mod.rs`. -/
inductive RiskLevel where
  | Low
  | Medium
  | High
  | Critical
deriving DecidableEq, Repr

/-- Rust `ApprovalStatus` from `state/mod.rs`. -/
inductive ApprovalStatus where
  | Pending
  | Approved
  | Denied
deriving DecidableEq, Repr

/-- Rust `Severity` from `state/mod.rs`. -/
inductive Severity where
  | Info
  | Low
  | Medium
  | High
  | Critical
deriving DecidableEq, Repr

/-- Rust `ArtifactType` from `state/mod.rs`. -/
inductive ArtifactType where
  | Report
  | Screenshot
  | Log
  | Data
  | Other
deriving DecidableEq, Repr

/-- Rust `serde_json::Value`. -/
inductive Json where
  | null
  | bool (b : Bool)
  | num (n : Int)
  | str (s : String)
  | arr (xs : List Json)
  | obj (kvs : List (String × Json))
deriving Repr

/-- Rust `serde_json::Value::as_object`, returning the key/value pairs when
the value is an object and `none` otherwise. -/
def Json.asObject : Json → Option (List (String × Json))
  | .obj kvs => some kvs
  | _ => none

/-- Rust `AgentStatus` from `state/mod.rs`. -/
structure AgentStatus where
  agent : AgentType
  state : AgentState
  current_task : Option String
  last_update : Nat

/-- Rust `Task` from `state/mod.rs`. -/
structure Task where
  id : String
  tool_name : String
  target : String
  args : List (String × Json)
  status : TaskStatus
  created_at : Nat
  started_at : Option Nat
  completed_at : Option Nat

/-- Rust `Action` from `state/mod.rs`. -/
structure Action where
  action_type : ActionType
  description : String
  risk_level : RiskLevel
  details : Json

/-- Rust `ApprovalRequest` from `state/mod.rs`. -/
structure ApprovalRequest where
  id : String
  action : Action
  reason : String
  created_at : Nat
  status : ApprovalStatus

/-- Rust `Finding` from `state/mod.rs`. -/
structure Finding where
  id : String
  title : String
  severity : Severity
  description : String
  tool_source : String
  discovered_at : Nat
  details : Json

/-- Rust `Artifact` from `state/mod.rs`. -/
structure Artifact where
  id : String
  artifact_type : ArtifactType
  name : String
  path : String
  created_at : Nat
  metadata : List (String × String)

/-- Rust `SessionState` from `state/mod.rs`. -/
structure SessionState where
  id : String
  name : String
  status : SessionStatus
  mode : OperationalMode
  created_at : Nat
  updated_at : Nat
  task_queue : List Task
  approval_queue : List ApprovalRequest
  agent_states : AgentType → Option AgentStatus
  findings : List Finding
  artifacts : List Artifact
  metadata : List (String × String)

/-- Rust `uuid.replace("-", "")`: removing every dash from the textual UUID.
(Computable model of `String::replace` with an empty replacement: it
deletes each occurrence of the one-character pattern.) -/
def stripDashes (s : String) : String :=
  String.mk (s.data.filter (fun ch => ch != '-'))

/-- The dash-stripped truncation of a UUID draw used by the id
format strings in `state/mod.rs`: `uuid.to_string().replace("-", "")[..n]`. -/
def uuidCode (n : Nat) (uuid : String) : String :=
  (stripDashes uuid).take n

/-- The session id format from `SessionState::new`:
`format!("session_{}", ...[..12])`. -/
def sessionIdOfUuid (uuid : String) : String :=
  "session_" ++ uuidCode 12 uuid

/-- The task id format from `SessionState::queue_task`:
`format!("task_{}", ...[..8])`. -/
def taskIdOfUuid (uuid : String) : String :=
  "task_" ++ uuidCode 8 uuid

/-- The approval id format from `SessionState::request_approval`. -/
def approvalIdOfUuid (uuid : String) : String :=
  "approval_" ++ uuidCode 8 uuid

/-- The five agent kinds iterated by the construction loop in
`SessionState::new`, in source order. -/
def agentKinds : List AgentType :=
  [AgentType.Planner, AgentType.Operator, AgentType.Navigator,
   AgentType.Analyst, AgentType.Scribe]

/-- Rust `HashMap::insert` on the `AgentType → Option AgentStatus` model. -/
def insertAgent (m : AgentType → Option AgentStatus) (a : AgentType)
    (v : AgentStatus) : AgentType → Option AgentStatus :=
  fun x => if x = a then some v else m x

/-- Rust `SessionState::new` from `state/mod.rs`: fresh id from the UUID draw,
status `Active`, both timestamps set to `now`, empty queues, and one
`Idle` `AgentStatus` inserted per agent kind by the loop. -/
def SessionState.new (name : String) (mode : OperationalMode)
    (now : Nat) (uuid : String) : SessionState :=
  let agent_states := agentKinds.foldl
    (fun m agent => insertAgent m agent
      { agent := agent, state := AgentState.Idle,
        current_task := none, last_update := now })
    (fun _ => none)
  { id := sessionIdOfUuid uuid
    name := name
    status := SessionStatus.Active
    mode := mode
    created_at := now
    updated_at := now
    task_queue := []
    approval_queue := []
    agent_states := agent_states
    findings := []
    artifacts := []
    metadata := [] }

/-- Rust `SessionState::touch`: `updated_at = Utc::now()`. -/
def SessionState.touch (s : SessionState) (now : Nat) : SessionState :=
  { s with updated_at := now }

/-- Rust `SessionState::queue_task` from `state/mod.rs`: build the task with a
fresh id, status `Queued`, `created_at = now`, no `started_at` or
`completed_at`; `push_back` it; `touch`. -/
def SessionState.queue_task (s : SessionState) (tool_name target : String)
    (args : List (String × Json)) (now : Nat) (uuid : String) : SessionState :=
  let task : Task :=
    { id := taskIdOfUuid uuid
      tool_name := tool_name
      target := target
      args := args
      status := TaskStatus.Queued
      created_at := now
      started_at := none
      completed_at := none }
  SessionState.touch { s with task_queue := s.task_queue ++ [task] } now

/-- Rust `SessionState::request_approval` from `state/mod.rs`: build a
`Pending` approval with a fresh id, `push_back` it, `touch`, return
the new id. -/
def SessionState.request_approval (s : SessionState) (action : Action)
    (reason : String) (now : Nat) (uuid : String) : SessionState × String :=
  let approval : ApprovalRequest :=
    { id := approvalIdOfUuid uuid
      action := action
      reason := reason
      created_at := now
      status := ApprovalStatus.Pending }
  (SessionState.touch { s with approval_queue := s.approval_queue ++ [approval] } now,
   approval.id)

/-- Rust `SessionState::add_finding` from `state/mod.rs`: build a finding with
a fresh id, push it, `touch`. -/
def SessionState.add_finding (s : SessionState) (title : String)
    (severity : Severity) (description tool_source : String) (details : Json)
    (now : Nat) (uuid : String) : SessionState :=
  let finding : Finding :=
    { id := "finding_" ++ uuidCode 8 uuid
      title := title
      severity := severity
      description := description
      tool_source := tool_source
      discovered_at := now
      details := details }
  SessionState.touch { s with findings := s.findings ++ [finding] } now

/-! ## Session Store (`session/mod.rs`) -/

/-- Rust `NRS_VERSION` from `session/mod.rs`. -/
def NRS_VERSION : String := "1.0"

/-- Rust `NrsFile` from `session/mod.rs`: the versioned on-disk envelope. -/
structure NrsFile where
  version : String
  session : SessionState
  saved_at : Nat

/-- What a stored file holds, at the granularity `serde_json::from_str`
observes: either content that decodes to an `NrsFile` envelope, or
content (corrupt, truncated, or partially written) that it rejects. -/
inductive NrsContent where
  | valid (f : NrsFile)
  | malformed

/-- The contents of the `sessions` directory: named files. -/
def Directory : Type := List (String × NrsContent)

/-- Read the file named `name` (`fs::read_to_string` + decode level). -/
def getFile (dir : Directory) (name : String) : Option NrsContent :=
  ((dir : List (String × NrsContent)).find? (fun e => e.1 == name)).map (fun e => e.2)

/-- Overwrite (or create) the file named `name` (`fs::write` target). -/
def setFile (dir : Directory) (name : String) (c : NrsContent) : Directory :=
  (name, c) :: (dir : List (String × NrsContent)).filter (fun e => !(e.1 == name))

/-- Remove the file named `name` (`fs::remove_file`). -/
def removeFile (dir : Directory) (name : String) : Directory :=
  (dir : List (String × NrsContent)).filter (fun e => !(e.1 == name))

/-- The error taxonomy of the store layer. -/
inductive StoreError where
  | NotFound
  | DecodeError
  | IOError
deriving DecidableEq, Repr

/-- Rust `format!("{}.nrs", session_id)`. -/
def nrsFilename (session_id : String) : String := session_id ++ ".nrs"

/-- Rust `SessionManager::save_session`: build the envelope
`{version: NRS_VERSION, session, saved_at: now}`, serialize it and
`fs::write` it to `{id}.nrs`, overwriting any prior file.  `fs::write`
truncates then writes, so it is not atomic: `fault = true` models a
write failure part-way, which leaves a proper prefix of the new JSON —
malformed content — in the file and returns an I/O error. -/
def SessionManager.save_session (dir : Directory) (s : SessionState)
    (now : Nat) (fault : Bool) : Directory × Except StoreError String :=
  let nrs_file : NrsFile := { version := NRS_VERSION, session := s, saved_at := now }
  let filename := nrsFilename s.id
  if fault then
    (setFile dir filename NrsContent.malformed, Except.error StoreError.IOError)
  else
    (setFile dir filename (NrsContent.valid nrs_file), Except.ok filename)

/-- Rust `SessionManager::load_session`: read `{id}.nrs` (`NotFound` when the
file is absent), decode the envelope (`DecodeError` when malformed);
a version mismatch is only logged (`tracing::warn!`) and does not
change the result; return the embedded session. -/
def SessionManager.load_session (dir : Directory) (session_id : String) :
    Except StoreError SessionState :=
  match getFile dir (nrsFilename session_id) with
  | none => Except.error StoreError.NotFound
  | some NrsContent.malformed => Except.error StoreError.DecodeError
  | some (NrsContent.valid nrs_file) => Except.ok nrs_file.session

/-- Rust `SessionMetadata` from `session/mod.rs`. -/
structure SessionMetadata where
  id : String
  name : String
  status : SessionStatus
  mode : OperationalMode
  created_at : Nat
  updated_at : Nat
  task_count : Nat
  finding_count : Nat

/-- Rust `SessionManager::get_session_metadata`: decode the file's envelope
and project the summary fields. -/
def SessionManager.get_session_metadata (content : NrsContent) :
    Except StoreError SessionMetadata :=
  match content with
  | NrsContent.malformed => Except.error StoreError.DecodeError
  | NrsContent.valid nrs_file =>
      Except.ok
        { id := nrs_file.session.id
          name := nrs_file.session.name
          status := nrs_file.session.status
          mode := nrs_file.session.mode
          created_at := nrs_file.session.created_at
          updated_at := nrs_file.session.updated_at
          task_count := nrs_file.session.task_queue.length
          finding_count := nrs_file.session.findings.length }

/-- Rust `Path::extension` on a bare file name: the part after the last dot,
except that a name with no dot, or only a leading dot, has none. -/
def fileExtension (name : String) : Option String :=
  match name.splitOn "." with
  | [] => none
  | [_] => none
  | ["", _] => none
  | parts => parts.getLast?

/-- The body of the `list_sessions` loop for one directory entry: keep
the entry when its extension is `nrs` and `get_session_metadata`
succeeds (`if let Ok(metadata) = ...`), skip it otherwise. -/
def nrsEntrySummary (e : String × NrsContent) : Option SessionMetadata :=
  if fileExtension e.1 = some "nrs" then
    match SessionManager.get_session_metadata e.2 with
    | Except.ok m => some m
    | Except.error _ => none
  else none

/-- Rust `SessionManager::list_sessions`: for each directory entry with
extension `nrs`, try `get_session_metadata` and keep only the
successes (`if let Ok`), then sort by `updated_at` descending
(`sort_by(|a, b| b.updated_at.cmp(&a.updated_at))`). -/
def SessionManager.list_sessions (dir : Directory) :
    Except StoreError (List SessionMetadata) :=
  let sessions := (dir : List (String × NrsContent)).filterMap nrsEntrySummary
  Except.ok (sessions.mergeSort (fun a b => decide (b.updated_at ≤ a.updated_at)))

/-- Rust `SessionManager::delete_session`: `fs::remove_file` on `{id}.nrs`;
fails with `NotFound` when the file is absent. -/
def SessionManager.delete_session (dir : Directory) (session_id : String) :
    Directory × Except StoreError Unit :=
  let filename := nrsFilename session_id
  match getFile dir filename with
  | none => (dir, Except.error StoreError.NotFound)
  | some _ => (removeFile dir filename, Except.ok ())

/-! ## Orchestrator (`lib.rs`) -/

/-- Rust `WSEvent` payloads broadcast by the orchestrator
(`websocket/events.rs`), restricted to the variants `lib.rs` emits. -/
inductive WSEvent where
  | SessionCreated (session_id name : String)
  | SessionDeleted (session_id : String)
  | SessionLoaded (session_id : String) (state : SessionState)
  | SessionSaved (session_id : String) (timestamp : Nat)
  | SessionList (sessions : List SessionMetadata)
  | TaskQueued (task : Task)
  | AgentStatusChanged (agent : AgentType) (status : AgentStatus)
  | ChatResponse (response model : String)

/-- Rust `NeuroRiftCore` from `lib.rs`: the in-memory registry
(`DashMap<String, SessionState>` as a partial map), the active-session
pointer, the on-disk sessions directory, and the log of events
broadcast so far (`ws_server.broadcast` appends). -/
structure NeuroRiftCore where
  sessions : String → Option SessionState
  active_session : Option String
  dir : Directory
  events : List WSEvent

/-- Rust `DashMap::insert` on the registry model. -/
def insertSession (m : String → Option SessionState) (k : String)
    (v : SessionState) : String → Option SessionState :=
  fun x => if x = k then some v else m x

/-- Rust `DashMap::remove` on the registry model. -/
def removeSession (m : String → Option SessionState) (k : String) :
    String → Option SessionState :=
  fun x => if x = k then none else m x

/-- Rust `NeuroRiftCore::create_session`: build the session (§`SessionState.new`),
override its metadata when one is supplied, insert it, set it active
unconditionally, broadcast `SessionCreated`, return the id. -/
def NeuroRiftCore.create_session (c : NeuroRiftCore) (name : String)
    (mode : OperationalMode) (metadata : Option (List (String × String)))
    (now : Nat) (uuid : String) : NeuroRiftCore × String :=
  let session0 := SessionState.new name mode now uuid
  let session := match metadata with
    | some meta => { session0 with metadata := meta }
    | none => session0
  let session_id := session.id
  ({ c with
      sessions := insertSession c.sessions session_id session
      active_session := some session_id
      events := c.events ++ [WSEvent.SessionCreated session_id name] },
   session_id)

/-- Rust `NeuroRiftCore::delete_session`: remove from the registry, clear the
active pointer when it equals the id, then delete from disk — the `?`
makes a disk failure return early, after the in-memory effects, and
skip the `SessionDeleted` broadcast. -/
def NeuroRiftCore.delete_session (c : NeuroRiftCore) (session_id : String) :
    NeuroRiftCore × Except StoreError Unit :=
  let sessions' := removeSession c.sessions session_id
  let active' := match c.active_session with
    | some active_id => if active_id = session_id then none else c.active_session
    | none => none
  let c1 := { c with sessions := sessions', active_session := active' }
  match SessionManager.delete_session c1.dir session_id with
  | (_, Except.error e) => (c1, Except.error e)
  | (dir', Except.ok _) =>
      ({ c1 with
          dir := dir',
          events := c1.events ++ [WSEvent.SessionDeleted session_id] },
       Except.ok ())

/-- Rust `NeuroRiftCore::save_session`: when the id is resident in the
registry, snapshot it, persist via the store and broadcast
`SessionSaved`; silently no-op otherwise. -/
def NeuroRiftCore.save_session (c : NeuroRiftCore) (session_id : String)
    (now : Nat) (fault : Bool) : NeuroRiftCore × Except StoreError Unit :=
  match c.sessions session_id with
  | none => (c, Except.ok ())
  | some s =>
    match SessionManager.save_session c.dir s now fault with
    | (dir', Except.ok _) =>
        ({ c with
            dir := dir',
            events := c.events ++ [WSEvent.SessionSaved session_id now] },
         Except.ok ())
    | (dir', Except.error e) => ({ c with dir := dir' }, Except.error e)

/-- Rust `NeuroRiftCore::get_active_session`: read the active pointer, then
look the id up in the registry (`None` when either step misses). -/
def NeuroRiftCore.get_active_session (c : NeuroRiftCore) :
    Option (String × SessionState) :=
  match c.active_session with
  | none => none
  | some active_id =>
    match c.sessions active_id with
    | none => none
    | some s => some (active_id, s)

/-- Rust `NeuroRiftCore::queue_task`: when an active session resolves,
convert `args` to a map (`as_object`, defaulting to empty on
non-objects), enqueue via the data model, and broadcast `TaskQueued`
with `task_queue.back()`; always returns `Ok(())`. -/
def NeuroRiftCore.queue_task (c : NeuroRiftCore) (tool_name target : String)
    (args : Json) (now : Nat) (uuid : String) :
    NeuroRiftCore × Except StoreError Unit :=
  match c.get_active_session with
  | none => (c, Except.ok ())
  | some (aid, s) =>
    let args_map := (Json.asObject args).getD []
    let s' := s.queue_task tool_name target args_map now uuid
    let events' := match s'.task_queue.getLast? with
      | some task => c.events ++ [WSEvent.TaskQueued task]
      | none => c.events
    ({ c with sessions := insertSession c.sessions aid s', events := events' },
     Except.ok ())

/-- Rust `NeuroRiftCore::update_agent_status`: when an active session
resolves and holds a status for `agent`, update its state, current
task and `last_update` in place and broadcast `AgentStatusChanged`;
no-op otherwise. -/
def NeuroRiftCore.update_agent_status (c : NeuroRiftCore) (agent : AgentType)
    (state : AgentState) (current_task : Option String) (now : Nat) :
    NeuroRiftCore :=
  match c.get_active_session with
  | none => c
  | some (aid, s) =>
    match s.agent_states agent with
    | none => c
    | some agent_status =>
      let agent_status' := { agent_status with
        state := state, current_task := current_task, last_update := now }
      let s' := { s with agent_states := insertAgent s.agent_states agent agent_status' }
      { c with
        sessions := insertSession c.sessions aid s',
        events := c.events ++ [WSEvent.AgentStatusChanged agent agent_status'] }

/-! ## Basic store lemmas -/

theorem getFile_setFile_same (dir : Directory) (name : String) (c : NrsContent) :
    getFile (setFile dir name c) name = some c := by
  simp [getFile, setFile]

theorem find?_filter_ne (l : List (String × NrsContent)) (k name : String)
    (h : k ≠ name) :
    (l.filter (fun e => !(e.1 == name))).find? (fun e => e.1 == k) =
      l.find? (fun e => e.1 == k) := by
  induction l with
  | nil => rfl
  | cons e l ih =>
    by_cases h1 : e.1 = name
    · have hd : (e.1 == name) = true := beq_iff_eq.mpr h1
      have hk : (e.1 == k) = false :=
        beq_eq_false_iff_ne.mpr (fun hh => h ((h1 ▸ hh).symm))
      simp [List.filter_cons, hd, List.find?_cons, hk, ih]
    · have hd : (e.1 == name) = false := beq_eq_false_iff_ne.mpr h1
      by_cases h2 : e.1 = k
      · have h2t : (e.1 == k) = true := beq_iff_eq.mpr h2
        simp [List.filter_cons, hd, List.find?_cons, h2t]
      · have h2f : (e.1 == k) = false := beq_eq_false_iff_ne.mpr h2
        simp [List.filter_cons, hd, List.find?_cons, h2f, ih]

theorem getFile_setFile_ne (dir : Directory) (name k : String) (c : NrsContent)
    (h : k ≠ name) :
    getFile (setFile dir name c) k = getFile dir k := by
  have hk : (name == k) = false := beq_eq_false_iff_ne.mpr (Ne.symm h)
  simp [getFile, setFile, List.find?_cons, hk, find?_filter_ne dir k name h]

theorem getFile_removeFile_same (dir : Directory) (name : String) :
    getFile (removeFile dir name) name = none := by
  have : (removeFile dir name).find? (fun e => e.1 == name) = none := by
    rw [List.find?_eq_none]
    intro x hx
    rw [removeFile, List.mem_filter] at hx
    simpa using hx.2
  simp [getFile, this]

/-! ## Fixtures (concrete values used by witnesses and counterexamples) -/

/-- A concrete session used as a test fixture. -/
def sess0 : SessionState :=
  { id := "session_x"
    name := "demo"
    status := SessionStatus.Active
    mode := OperationalMode.Offensive
    created_at := 1
    updated_at := 2
    task_queue := []
    approval_queue := []
    agent_states := fun a =>
      some { agent := a, state := AgentState.Idle, current_task := none, last_update := 1 }
    findings := []
    artifacts := []
    metadata := [] }

/-- A concrete stored envelope holding `sess0`. -/
def env0 : NrsFile := { version := NRS_VERSION, session := sess0, saved_at := 1 }

/-- A concrete stored envelope with a non-current format version. -/
def env09 : NrsFile := { version := "0.9", session := sess0, saved_at := 3 }

/-- An empty orchestrator. -/
def core0 : NeuroRiftCore :=
  { sessions := fun _ => none
    active_session := none
    dir := []
    events := [] }

/-- An orchestrator with `sess0` resident and active, with its file on disk. -/
def core1 : NeuroRiftCore :=
  { sessions := fun k => if k = sess0.id then some sess0 else none
    active_session := some sess0.id
    dir := [(nrsFilename sess0.id, NrsContent.valid env0)]
    events := [] }

/-! ## Claim theorems -/

/-- C1: saving any session with the Session Store and then loading by its
id returns the very session that was saved (field-for-field; the
envelope's `saved_at` and version are not part of the returned value). -/
theorem save_load_roundtrip (dir : Directory) (s : SessionState) (now : Nat) :
    SessionManager.load_session (SessionManager.save_session dir s now false).1 s.id
      = Except.ok s := by
  simp [SessionManager.save_session, SessionManager.load_session, getFile_setFile_same]

/-- C6: `load_session` fails with `NotFound` when no file exists for the
id, fails with `DecodeError` on malformed content, and on a decodable
envelope whose format version differs from `NRS_VERSION` it does not
fail and returns the embedded session snapshot unchanged. -/
theorem load_session_spec (dir : Directory) (session_id : String) :
    (getFile dir (nrsFilename session_id) = none →
      SessionManager.load_session dir session_id = Except.error StoreError.NotFound) ∧
    (getFile dir (nrsFilename session_id) = some NrsContent.malformed →
      SessionManager.load_session dir session_id = Except.error StoreError.DecodeError) ∧
    (∀ f : NrsFile, getFile dir (nrsFilename session_id) = some (NrsContent.valid f) →
      f.version ≠ NRS_VERSION →
      SessionManager.load_session dir session_id = Except.ok f.session) := by
  refine ⟨fun h => ?_, fun h => ?_, fun f h hv => ?_⟩ <;>
    simp [SessionManager.load_session, h]

/-- Witness for C6 at concrete inputs: an absent file, a malformed file,
and a version-0.9 envelope that still loads. -/
theorem load_session_spec_witness :
    SessionManager.load_session [] "session_x" = Except.error StoreError.NotFound ∧
    SessionManager.load_session [(nrsFilename "session_x", NrsContent.malformed)]
      "session_x" = Except.error StoreError.DecodeError ∧
    (env09.version ≠ NRS_VERSION ∧
      SessionManager.load_session [(nrsFilename "session_x", NrsContent.valid env09)]
        "session_x" = Except.ok env09.session) :=
  ⟨(load_session_spec [] "session_x").1 rfl,
   (load_session_spec [(nrsFilename "session_x", NrsContent.malformed)] "session_x").2.1 rfl,
   by decide,
   (load_session_spec [(nrsFilename "session_x", NrsContent.valid env09)] "session_x").2.2
     env09 rfl (by decide)⟩

/-- C8 counterexample: `save_session` writes through `fs::write`, which
truncates the target before writing; a write failure leaves partial
(malformed) content in the file for `sess0.id`, which is neither the
complete new envelope nor the complete prior content.  So "after save,
the file contains either the complete new envelope or (on failure) the
complete prior content" is false. -/
theorem save_session_atomicity_counterexample :
    ¬ (getFile (SessionManager.save_session
          [(nrsFilename sess0.id, NrsContent.valid env0)] sess0 5 true).1
          (nrsFilename sess0.id)
        = some (NrsContent.valid { version := NRS_VERSION, session := sess0, saved_at := 5 }) ∨
       getFile (SessionManager.save_session
          [(nrsFilename sess0.id, NrsContent.valid env0)] sess0 5 true).1
          (nrsFilename sess0.id)
        = some (NrsContent.valid env0)) := by
  have hm : getFile (SessionManager.save_session
      [(nrsFilename sess0.id, NrsContent.valid env0)] sess0 5 true).1
      (nrsFilename sess0.id) = some NrsContent.malformed := by
    simp [SessionManager.save_session, getFile_setFile_same]
  intro h
  rcases h with h | h <;> rw [hm] at h <;>
    exact NrsContent.noConfusion (Option.some.injEq _ _ ▸ h)

/-- C8 amended: a successful `save_session` writes the complete versioned
envelope `{NRS_VERSION, session, saved_at}` to the file named
`{id}.nrs`, overwriting any prior file for that id and leaving every
other file untouched; but the write is not atomic — a failed
`fs::write` reports an I/O error and can leave partial (malformed)
content in that file rather than the prior content. -/
theorem save_session_spec (dir : Directory) (s : SessionState) (now : Nat) :
    (getFile (SessionManager.save_session dir s now false).1 (nrsFilename s.id)
        = some (NrsContent.valid { version := NRS_VERSION, session := s, saved_at := now })) ∧
    ((SessionManager.save_session dir s now false).2 = Except.ok (nrsFilename s.id)) ∧
    (∀ k, k ≠ nrsFilename s.id →
        getFile (SessionManager.save_session dir s now false).1 k = getFile dir k) ∧
    (getFile (SessionManager.save_session dir s now true).1 (nrsFilename s.id)
        = some NrsContent.malformed) ∧
    ((SessionManager.save_session dir s now true).2 = Except.error StoreError.IOError) := by
  refine ⟨?_, ?_, fun k hk => ?_, ?_, ?_⟩
  · simp [SessionManager.save_session, getFile_setFile_same]
  · simp [SessionManager.save_session]
  · simp [SessionManager.save_session, getFile_setFile_ne _ _ _ _ hk]
  · simp [SessionManager.save_session, getFile_setFile_same]
  · simp [SessionManager.save_session]

/-- Witness for C8 amended at a concrete store: saving `sess0` over its
prior file replaces the content and leaves an unrelated file alone. -/
theorem save_session_spec_witness :
    ("other.nrs" ≠ nrsFilename sess0.id) ∧
    getFile (SessionManager.save_session
        [(nrsFilename sess0.id, NrsContent.valid env09),
         ("other.nrs", NrsContent.malformed)] sess0 7 false).1 (nrsFilename sess0.id)
      = some (NrsContent.valid { version := NRS_VERSION, session := sess0, saved_at := 7 }) ∧
    getFile (SessionManager.save_session
        [(nrsFilename sess0.id, NrsContent.valid env09),
         ("other.nrs", NrsContent.malformed)] sess0 7 false).1 "other.nrs"
      = getFile [(nrsFilename sess0.id, NrsContent.valid env09),
         ("other.nrs", NrsContent.malformed)] "other.nrs" :=
  ⟨by decide,
   (save_session_spec [(nrsFilename sess0.id, NrsContent.valid env09),
      ("other.nrs", NrsContent.malformed)] sess0 7).1,
   (save_session_spec [(nrsFilename sess0.id, NrsContent.valid env09),
      ("other.nrs", NrsContent.malformed)] sess0 7).2.2.1 "other.nrs" (by decide)⟩

/-- C5: `list_sessions` never fails on a readable directory; it returns
exactly one summary per `.nrs` entry whose envelope decodes (skipping
entries that fail to decode), sorted by `updated_at` descending. -/
theorem list_sessions_spec (dir : Directory) :
    ∃ l, SessionManager.list_sessions dir = Except.ok l ∧
      List.Perm l ((dir : List (String × NrsContent)).filterMap nrsEntrySummary) ∧
      l.Sorted (fun a b => b.updated_at ≤ a.updated_at) := by
  refine ⟨_, rfl, List.mergeSort_perm _ _, ?_⟩
  have h := @List.sorted_mergeSort SessionMetadata
    (fun a b : SessionMetadata => decide (b.updated_at ≤ a.updated_at))
    (fun a b c hab hbc => by
      simp only [decide_eq_true_eq] at *
      exact le_trans hbc hab)
    (fun a b => by
      simp only [Bool.or_eq_true, decide_eq_true_eq]
      exact Nat.le_total b.updated_at a.updated_at)
    ((dir : List (String × NrsContent)).filterMap nrsEntrySummary)
  exact h.imp (fun hab => of_decide_eq_true hab)

theorem new_agent_states (name : String) (mode : OperationalMode)
    (now : Nat) (uuid : String) (a : AgentType) :
    (SessionState.new name mode now uuid).agent_states a =
      some { agent := a, state := AgentState.Idle,
             current_task := none, last_update := now } := by
  cases a <;> rfl

theorem string_append_cancel_left {a b c : String} (h : a ++ b = a ++ c) :
    b = c := by
  have hd := congrArg String.data h
  simp [String.data_append] at hd
  exact String.ext hd

theorem sessionIdOfUuid_inj {u v : String}
    (h : sessionIdOfUuid u = sessionIdOfUuid v) :
    uuidCode 12 u = uuidCode 12 v :=
  string_append_cancel_left h

theorem create_session_id (c : NeuroRiftCore) (name : String)
    (mode : OperationalMode) (metadata : Option (List (String × String)))
    (now : Nat) (uuid : String) :
    (c.create_session name mode metadata now uuid).2 = sessionIdOfUuid uuid := by
  cases metadata <;> rfl

/-- C2: `create_session` yields an id distinct from every prior id (under
the idealization that the fresh UUID draw's 12-character code differs
from all prior draws' codes, which is all the randomness guarantees);
the new session has one `Idle` status per agent kind — of which there
are exactly 5 — empty task and approval queues, `created_at` equal to
`updated_at`, and status `Active`. -/
theorem create_session_spec (c : NeuroRiftCore) (name : String)
    (mode : OperationalMode) (metadata : Option (List (String × String)))
    (now : Nat) (uuid : String) (priorUuids : List String)
    (hFresh : ∀ u ∈ priorUuids, uuidCode 12 uuid ≠ uuidCode 12 u) :
    ((c.create_session name mode metadata now uuid).2
        ∉ priorUuids.map sessionIdOfUuid) ∧
    (∀ a : AgentType, a ∈ agentKinds) ∧
    agentKinds.length = 5 ∧ agentKinds.Nodup ∧
    ∃ s, (c.create_session name mode metadata now uuid).1.sessions
           (c.create_session name mode metadata now uuid).2 = some s ∧
      (∀ a : AgentType, s.agent_states a =
        some { agent := a, state := AgentState.Idle,
               current_task := none, last_update := now }) ∧
      s.task_queue = [] ∧ s.approval_queue = [] ∧
      s.created_at = now ∧ s.updated_at = now ∧
      s.status = SessionStatus.Active := by
  refine ⟨?_, fun a => by cases a <;> simp [agentKinds], rfl, by decide, ?_⟩
  · rw [create_session_id]
    intro hmem
    rw [List.mem_map] at hmem
    obtain ⟨u, hu, he⟩ := hmem
    exact hFresh u hu (sessionIdOfUuid_inj he.symm)
  · rcases metadata with _ | meta
    · exact ⟨SessionState.new name mode now uuid,
        by simp [NeuroRiftCore.create_session, insertSession],
        new_agent_states name mode now uuid, rfl, rfl, rfl, rfl, rfl⟩
    · exact ⟨{ SessionState.new name mode now uuid with metadata := meta },
        by simp [NeuroRiftCore.create_session, insertSession],
        new_agent_states name mode now uuid, rfl, rfl, rfl, rfl, rfl⟩

/-- Witness for C2 at a concrete core, name, mode and UUID draw, with
one prior draw whose code differs. -/
theorem create_session_spec_witness :
    (∀ u ∈ ["00000000-zzzz-9999"],
      uuidCode 12 "aaaabbbb-cccc-dddd" ≠ uuidCode 12 u) ∧
    ((core0.create_session "recon-1" OperationalMode.Offensive none 1
        "aaaabbbb-cccc-dddd").2
      ∉ (["00000000-zzzz-9999"].map sessionIdOfUuid)) :=
  ⟨by decide,
   (create_session_spec core0 "recon-1" OperationalMode.Offensive none 1
      "aaaabbbb-cccc-dddd" ["00000000-zzzz-9999"] (by decide)).1⟩

/-- C3: on a session with `N` queued tasks, the data-model `queue_task`
yields `N + 1` tasks with the newly built task — status `Queued`,
fresh id, no `started_at`, no `completed_at` — at the tail, the first
`N` tasks unchanged and in order, and a strictly later `updated_at`
(given that the clock reading at the mutation is strictly later). -/
theorem queue_task_data_spec (s : SessionState) (tool target : String)
    (args : List (String × Json)) (now : Nat) (uuid : String)
    (hNow : s.updated_at < now)
    (hFresh : ∀ t ∈ s.task_queue, t.id ≠ taskIdOfUuid uuid) :
    (s.queue_task tool target args now uuid).task_queue =
      s.task_queue ++
        [{ id := taskIdOfUuid uuid, tool_name := tool, target := target,
           args := args, status := TaskStatus.Queued, created_at := now,
           started_at := none, completed_at := none }] ∧
    (s.queue_task tool target args now uuid).task_queue.length
      = s.task_queue.length + 1 ∧
    (∀ t ∈ s.task_queue, t.id ≠ taskIdOfUuid uuid) ∧
    s.updated_at < (s.queue_task tool target args now uuid).updated_at :=
  ⟨rfl, by simp [SessionState.queue_task, SessionState.touch], hFresh, hNow⟩

/-- Witness for C3: queueing a portscan task on `sess0` at time 5. -/
theorem queue_task_data_spec_witness :
    sess0.updated_at < 5 ∧
    (sess0.queue_task "portscan" "10.0.0.5" [] 5 "12345678").task_queue =
      sess0.task_queue ++
        [{ id := taskIdOfUuid "12345678", tool_name := "portscan",
           target := "10.0.0.5", args := [], status := TaskStatus.Queued,
           created_at := 5, started_at := none, completed_at := none }] ∧
    sess0.updated_at < (sess0.queue_task "portscan" "10.0.0.5" [] 5 "12345678").updated_at :=
  ⟨by decide,
   (queue_task_data_spec sess0 "portscan" "10.0.0.5" [] 5 "12345678" (by decide)
      (by intro t ht; simp [sess0] at ht)).1,
   (queue_task_data_spec sess0 "portscan" "10.0.0.5" [] 5 "12345678" (by decide)
      (by intro t ht; simp [sess0] at ht)).2.2.2⟩

theorem get_active_session_some {c : NeuroRiftCore} {aid : String}
    {s : SessionState} (h : c.get_active_session = some (aid, s)) :
    c.active_session = some aid ∧ c.sessions aid = some s := by
  rcases hc : c.active_session with _ | a
  · simp [NeuroRiftCore.get_active_session, hc] at h
  · rcases hs : c.sessions a with _ | s2
    · simp [NeuroRiftCore.get_active_session, hc, hs] at h
    · simp only [NeuroRiftCore.get_active_session, hc, hs, Option.some.injEq,
        Prod.mk.injEq] at h
      obtain ⟨h1, h2⟩ := h
      subst h1; subst h2
      exact ⟨rfl, hs⟩

/-- C4: the orchestrator's `queue_task` succeeds as a no-op (state
unchanged, `Ok`) when no active session resolves; when one does, it
appends exactly one task to that session's queue, leaves every other
session untouched, and broadcasts a `TaskQueued` event carrying exactly
the task that was appended. -/
theorem core_queue_task_spec (c : NeuroRiftCore) (tool target : String)
    (args : Json) (now : Nat) (uuid : String) :
    (c.get_active_session = none →
      c.queue_task tool target args now uuid = (c, Except.ok ())) ∧
    (∀ aid s, c.get_active_session = some (aid, s) →
      ∃ s' t,
        (c.queue_task tool target args now uuid).1.sessions aid = some s' ∧
        s'.task_queue = s.task_queue ++ [t] ∧
        (c.queue_task tool target args now uuid).1.events
          = c.events ++ [WSEvent.TaskQueued t] ∧
        (∀ k, k ≠ aid → (c.queue_task tool target args now uuid).1.sessions k
          = c.sessions k) ∧
        (c.queue_task tool target args now uuid).2 = Except.ok ()) := by
  constructor
  · intro h
    simp [NeuroRiftCore.queue_task, h]
  · intro aid s h
    refine ⟨s.queue_task tool target ((Json.asObject args).getD []) now uuid,
      { id := taskIdOfUuid uuid, tool_name := tool, target := target,
        args := (Json.asObject args).getD [], status := TaskStatus.Queued,
        created_at := now, started_at := none, completed_at := none },
      ?_, rfl, ?_, ?_, ?_⟩
    · simp [NeuroRiftCore.queue_task, h, insertSession]
    · simp [NeuroRiftCore.queue_task, h, SessionState.queue_task,
        SessionState.touch, List.getLast?_concat]
    · intro k hk
      simp [NeuroRiftCore.queue_task, h, insertSession, hk]
    · simp [NeuroRiftCore.queue_task, h]

/-- Witness for C4: queueing on an orchestrator whose active session is
`sess0`, with an empty-object argument value. -/
theorem core_queue_task_spec_witness :
    core1.get_active_session = some (sess0.id, sess0) ∧
    (∃ s' t,
      (core1.queue_task "nmap" "10.0.0.1" (Json.obj []) 9 "deadbeef").1.sessions
        sess0.id = some s' ∧
      s'.task_queue = sess0.task_queue ++ [t] ∧
      (core1.queue_task "nmap" "10.0.0.1" (Json.obj []) 9 "deadbeef").1.events
        = core1.events ++ [WSEvent.TaskQueued t] ∧
      (∀ k, k ≠ sess0.id →
        (core1.queue_task "nmap" "10.0.0.1" (Json.obj []) 9 "deadbeef").1.sessions k
          = core1.sessions k) ∧
      (core1.queue_task "nmap" "10.0.0.1" (Json.obj []) 9 "deadbeef").2
        = Except.ok ()) :=
  ⟨rfl,
   (core_queue_task_spec core1 "nmap" "10.0.0.1" (Json.obj []) 9 "deadbeef").2
     sess0.id sess0 rfl⟩

/-- C10: when the orchestrator's `queue_task` is handed an `args` value
that is not a JSON object and an active session exists, it still
succeeds: the task is queued with an empty argument map and the
broadcast `TaskQueued` event carries that task. -/
theorem core_queue_task_nonobject_args (c : NeuroRiftCore)
    (tool target : String) (args : Json) (now : Nat) (uuid : String)
    (aid : String) (s : SessionState)
    (hActive : c.get_active_session = some (aid, s))
    (hArgs : Json.asObject args = none) :
    ∃ s' t,
      (c.queue_task tool target args now uuid).1.sessions aid = some s' ∧
      s'.task_queue = s.task_queue ++ [t] ∧
      t.args = [] ∧
      (c.queue_task tool target args now uuid).1.events
        = c.events ++ [WSEvent.TaskQueued t] ∧
      (c.queue_task tool target args now uuid).2 = Except.ok () := by
  refine ⟨s.queue_task tool target ((Json.asObject args).getD []) now uuid,
    { id := taskIdOfUuid uuid, tool_name := tool, target := target,
      args := (Json.asObject args).getD [], status := TaskStatus.Queued,
      created_at := now, started_at := none, completed_at := none },
    ?_, rfl, ?_, ?_, ?_⟩
  · simp [NeuroRiftCore.queue_task, hActive, insertSession]
  · simp [hArgs]
  · simp [NeuroRiftCore.queue_task, hActive, SessionState.queue_task,
      SessionState.touch, List.getLast?_concat]
  · simp [NeuroRiftCore.queue_task, hActive]

/-- Witness for C10: a string `args` value on an active session. -/
theorem core_queue_task_nonobject_args_witness :
    core1.get_active_session = some (sess0.id, sess0) ∧
    Json.asObject (Json.str "hello") = none ∧
    (∃ s' t,
      (core1.queue_task "nmap" "10.0.0.1" (Json.str "hello") 9 "deadbeef").1.sessions
        sess0.id = some s' ∧
      s'.task_queue = sess0.task_queue ++ [t] ∧
      t.args = [] ∧
      (core1.queue_task "nmap" "10.0.0.1" (Json.str "hello") 9 "deadbeef").1.events
        = core1.events ++ [WSEvent.TaskQueued t] ∧
      (core1.queue_task "nmap" "10.0.0.1" (Json.str "hello") 9 "deadbeef").2
        = Except.ok ()) :=
  ⟨rfl, rfl,
   core_queue_task_nonobject_args core1 "nmap" "10.0.0.1" (Json.str "hello") 9
     "deadbeef" sess0.id sess0 rfl rfl⟩

theorem delete_session_sessions (c : NeuroRiftCore) (session_id k : String) :
    (c.delete_session session_id).1.sessions k
      = removeSession c.sessions session_id k := by
  rcases hg : getFile c.dir (nrsFilename session_id) with _ | cont <;>
    simp [NeuroRiftCore.delete_session, SessionManager.delete_session, hg]

theorem delete_session_active_of_eq (c : NeuroRiftCore) (session_id : String)
    (h : c.active_session = some session_id) :
    (c.delete_session session_id).1.active_session = none := by
  rcases hg : getFile c.dir (nrsFilename session_id) with _ | cont <;>
    simp [NeuroRiftCore.delete_session, SessionManager.delete_session, hg, h]

theorem delete_session_active_of_ne (c : NeuroRiftCore) (session_id : String)
    (h : c.active_session ≠ some session_id) :
    (c.delete_session session_id).1.active_session = c.active_session := by
  rcases hca : c.active_session with _ | a
  · rcases hg : getFile c.dir (nrsFilename session_id) with _ | cont <;>
      simp [NeuroRiftCore.delete_session, SessionManager.delete_session, hg, hca]
  · have ha : ¬ (a = session_id) := fun he => h (by rw [hca, he])
    rcases hg : getFile c.dir (nrsFilename session_id) with _ | cont <;>
      simp [NeuroRiftCore.delete_session, SessionManager.delete_session, hg, hca, ha]

theorem delete_session_active_ne (c : NeuroRiftCore) (session_id : String) :
    (c.delete_session session_id).1.active_session ≠ some session_id := by
  rcases hca : c.active_session with _ | a
  · rcases hg : getFile c.dir (nrsFilename session_id) with _ | cont <;>
      simp [NeuroRiftCore.delete_session, SessionManager.delete_session, hg, hca]
  · by_cases ha : a = session_id <;>
      rcases hg : getFile c.dir (nrsFilename session_id) with _ | cont <;>
        simp [NeuroRiftCore.delete_session, SessionManager.delete_session, hg,
          hca, ha]

theorem delete_session_disk_none (c : NeuroRiftCore) (session_id : String)
    (hg : getFile c.dir (nrsFilename session_id) = none) :
    (c.delete_session session_id).1.dir = c.dir ∧
    (c.delete_session session_id).1.events = c.events ∧
    (c.delete_session session_id).2 = Except.error StoreError.NotFound := by
  simp [NeuroRiftCore.delete_session, SessionManager.delete_session, hg]

theorem delete_session_disk_some (c : NeuroRiftCore) (session_id : String)
    (cont : NrsContent)
    (hg : getFile c.dir (nrsFilename session_id) = some cont) :
    (c.delete_session session_id).1.dir
      = removeFile c.dir (nrsFilename session_id) ∧
    (c.delete_session session_id).1.events
      = c.events ++ [WSEvent.SessionDeleted session_id] ∧
    (c.delete_session session_id).2 = Except.ok () := by
  simp [NeuroRiftCore.delete_session, SessionManager.delete_session, hg]

/-- C7: `delete_session` always removes the id from the in-memory
registry (leaving other entries alone) and clears the active pointer
exactly when it equals the id — even when the id was never resident;
when the disk file exists it is deleted and `SessionDeleted` is
broadcast; when it does not (e.g. on a second delete of the same id)
the call returns `NotFound`, broadcasts nothing, and a repeat call is
a no-op for the whole in-memory part. -/
theorem core_delete_session_spec (c : NeuroRiftCore) (session_id : String) :
    ((c.delete_session session_id).1.sessions session_id = none) ∧
    (∀ k, k ≠ session_id →
      (c.delete_session session_id).1.sessions k = c.sessions k) ∧
    (c.active_session = some session_id →
      (c.delete_session session_id).1.active_session = none) ∧
    (c.active_session ≠ some session_id →
      (c.delete_session session_id).1.active_session = c.active_session) ∧
    (getFile c.dir (nrsFilename session_id) = none →
      (c.delete_session session_id).1.dir = c.dir ∧
      (c.delete_session session_id).1.events = c.events ∧
      (c.delete_session session_id).2 = Except.error StoreError.NotFound) ∧
    (∀ cont, getFile c.dir (nrsFilename session_id) = some cont →
      getFile (c.delete_session session_id).1.dir (nrsFilename session_id) = none ∧
      (c.delete_session session_id).1.events
        = c.events ++ [WSEvent.SessionDeleted session_id] ∧
      (c.delete_session session_id).2 = Except.ok ()) ∧
    ((c.delete_session session_id).2 = Except.ok () →
      (((c.delete_session session_id).1.delete_session session_id).2
        = Except.error StoreError.NotFound) ∧
      (∀ k, ((c.delete_session session_id).1.delete_session session_id).1.sessions k
        = (c.delete_session session_id).1.sessions k) ∧
      (((c.delete_session session_id).1.delete_session session_id).1.active_session
        = (c.delete_session session_id).1.active_session) ∧
      (((c.delete_session session_id).1.delete_session session_id).1.dir
        = (c.delete_session session_id).1.dir) ∧
      (((c.delete_session session_id).1.delete_session session_id).1.events
        = (c.delete_session session_id).1.events)) := by
  refine ⟨?_, fun k hk => ?_, fun ha => delete_session_active_of_eq c session_id ha,
    fun ha => delete_session_active_of_ne c session_id ha,
    fun hg => delete_session_disk_none c session_id hg,
    fun cont hg => ?_, fun hok => ?_⟩
  · rw [delete_session_sessions]
    simp [removeSession]
  · rw [delete_session_sessions]
    simp [removeSession, hk]
  · obtain ⟨hdir, hev, hr⟩ := delete_session_disk_some c session_id cont hg
    exact ⟨by rw [hdir]; exact getFile_removeFile_same _ _, hev, hr⟩
  · have hg : ∃ cont, getFile c.dir (nrsFilename session_id) = some cont := by
      rcases hg : getFile c.dir (nrsFilename session_id) with _ | cont
      · exact absurd ((delete_session_disk_none c session_id hg).2.2.symm.trans hok)
          (by simp)
      · exact ⟨cont, rfl⟩
    obtain ⟨cont, hg⟩ := hg
    obtain ⟨hdir, _, _⟩ := delete_session_disk_some c session_id cont hg
    have hg2 : getFile (c.delete_session session_id).1.dir
        (nrsFilename session_id) = none := by
      rw [hdir]; exact getFile_removeFile_same _ _
    obtain ⟨hdir2, hev2, hr2⟩ :=
      delete_session_disk_none (c.delete_session session_id).1 session_id hg2
    refine ⟨hr2, ?_, ?_, hdir2, hev2⟩
    · intro k
      rw [delete_session_sessions]
      by_cases hk : k = session_id
      · subst hk
        rw [delete_session_sessions]
        simp [removeSession]
      · simp [removeSession, hk]
    · exact delete_session_active_of_ne _ _ (delete_session_active_ne c session_id)

/-- Witness for C7: deleting `sess0` (resident, active, file on disk)
from `core1`, then deleting it again. -/
theorem core_delete_session_spec_witness :
    (core1.active_session = some sess0.id →
      (core1.delete_session sess0.id).1.active_session = none) ∧
    (getFile (core1.delete_session sess0.id).1.dir (nrsFilename sess0.id) = none ∧
      (core1.delete_session sess0.id).1.events
        = core1.events ++ [WSEvent.SessionDeleted sess0.id] ∧
      (core1.delete_session sess0.id).2 = Except.ok ()) ∧
    (((core1.delete_session sess0.id).1.delete_session sess0.id).2
      = Except.error StoreError.NotFound) :=
  ⟨(core_delete_session_spec core1 sess0.id).2.2.1,
   (core_delete_session_spec core1 sess0.id).2.2.2.2.2.1
     (NrsContent.valid env0) rfl,
   ((core_delete_session_spec core1 sess0.id).2.2.2.2.2.2
     ((core_delete_session_spec core1 sess0.id).2.2.2.2.2.1
       (NrsContent.valid env0) rfl).2.2).1⟩

/-- The §3 invariant for C9: every one of the agent kinds has exactly
one `AgentStatus` entry — the map holds a value at every kind (a
`HashMap` cannot hold a key twice, so presence is exactly-one). -/
def AgentInvariant (s : SessionState) : Prop :=
  ∀ a : AgentType, (s.agent_states a).isSome = true

/-- C9: the exactly-one-AgentStatus-per-kind invariant holds for a newly
constructed session and is preserved by `queue_task`,
`request_approval`, `add_finding`, and by the orchestrator's
`update_agent_status` (for every session in the registry). -/
theorem agent_invariant_spec (name : String) (mode : OperationalMode)
    (now nowM : Nat) (uuid uuidM : String) (s : SessionState)
    (tool target title desc tsrc reason : String)
    (args : List (String × Json)) (act : Action) (sev : Severity) (det : Json)
    (c : NeuroRiftCore) (agent : AgentType) (astate : AgentState)
    (ctask : Option String) :
    AgentInvariant (SessionState.new name mode now uuid) ∧
    (AgentInvariant s → AgentInvariant (s.queue_task tool target args nowM uuidM)) ∧
    (AgentInvariant s → AgentInvariant (s.request_approval act reason nowM uuidM).1) ∧
    (AgentInvariant s → AgentInvariant (s.add_finding title sev desc tsrc det nowM uuidM)) ∧
    ((∀ k sk, c.sessions k = some sk → AgentInvariant sk) →
      ∀ k sk, (c.update_agent_status agent astate ctask nowM).sessions k = some sk →
        AgentInvariant sk) := by
  refine ⟨?_, fun h => h, fun h => h, fun h => h, ?_⟩
  · intro a; rw [new_agent_states]; rfl
  · intro hall k sk hk
    rcases hact : c.get_active_session with _ | ⟨aid, sa⟩
    · simp only [NeuroRiftCore.update_agent_status, hact] at hk
      exact hall k sk hk
    · rcases hag : sa.agent_states agent with _ | st0
      · simp only [NeuroRiftCore.update_agent_status, hact, hag] at hk
        exact hall k sk hk
      · simp only [NeuroRiftCore.update_agent_status, hact, hag,
          insertSession] at hk
        by_cases hk2 : k = aid
        · subst hk2
          rw [if_pos rfl] at hk
          obtain ⟨hca, hcs⟩ := get_active_session_some hact
          have hsa : AgentInvariant sa := hall k sa hcs
          injection hk with hk
          subst hk
          intro a
          by_cases ha : a = agent
          · subst ha; simp [insertAgent]
          · simp only [insertAgent, if_neg ha]
            exact hsa a
        · rw [if_neg hk2] at hk
          exact hall k sk hk

/-- Witness for C9: the invariant holds on `sess0` and is carried
through `queue_task`; it also holds at construction. -/
theorem agent_invariant_spec_witness :
    AgentInvariant sess0 ∧
    AgentInvariant (sess0.queue_task "portscan" "10.0.0.5" [] 5 "12345678") ∧
    AgentInvariant (SessionState.new "recon-1" OperationalMode.Offensive 0 "u1") := by
  have hInv : AgentInvariant sess0 := fun a => rfl
  refine ⟨hInv, ?_, ?_⟩
  · exact (agent_invariant_spec "recon-1" OperationalMode.Offensive 0 5 "u1"
      "12345678" sess0 "portscan" "10.0.0.5" "t" "d" "ts" "r" []
      ⟨ActionType.ToolExecution, "d", RiskLevel.Low, Json.null⟩ Severity.Info
      Json.null core0 AgentType.Planner AgentState.Idle none).2.1 hInv
  · exact (agent_invariant_spec "recon-1" OperationalMode.Offensive 0 5 "u1"
      "12345678" sess0 "portscan" "10.0.0.5" "t" "d" "ts" "r" []
      ⟨ActionType.ToolExecution, "d", RiskLevel.Low, Json.null⟩ Severity.Info
      Json.null core0 AgentType.Planner AgentState.Idle none).1

end NeuroRift
